import Mathlib

/-!
Shallow embedding of `src/rod-simulator.py` (RomkaS62/RodSimulator3000).

Python floats are modelled by `ℚ` (exact arithmetic), Python exceptions by
`Except PyError`, and the shared mutable `Rod` references (the Simulation's
object list and a HeatSource's `target` both alias the same Rod object) by a
heap `List Rod` addressed by index.  A fresh `HeatSource` has no `target`
attribute at all, so reading it raises `AttributeError`; this is modelled by
`target : Option Nat` with `none` standing for the missing attribute.
-/

/-- Python exceptions that the embedded code can raise. -/
inductive PyError where
  | attributeError (attr : String) : PyError
  deriving DecidableEq, Repr

/-- `Material.__init__` (lines 128-131): immutable constant bundle. -/
structure Material where
  density : ℚ
  specificHeat : ℚ
  expansionCoefficient : ℚ
  deriving DecidableEq, Repr

/-- State of a `Rod` object (fields assigned in `Rod.__init__`, lines 59-67). -/
structure Rod where
  STPLength : ℚ
  STPDiameter : ℚ
  mass : ℚ
  material : Material
  heat : ℚ
  lastPrint : ℚ
  printed : Bool
  deriving DecidableEq, Repr

/-- `Rod.setTemperature` (lines 91-92): `self.heat = specificHeat * kelvin * mass`. -/
def Rod.setTemperature (r : Rod) (kelvin : ℚ) : Rod :=
  { r with heat := r.material.specificHeat * kelvin * r.mass }

/-- `Rod.__init__` (lines 59-67).  `time.time()` is passed in as `now`
(it only seeds the display clock `lastPrint`). -/
def Rod.init (material : Material) (length diameter now : ℚ) : Rod :=
  let r : Rod :=
    { STPLength := length
      STPDiameter := diameter
      mass := length * diameter * material.density
      material := material
      heat := 0
      lastPrint := now
      printed := false }
  r.setTemperature (273 + 20)

/-- `Rod.temperature` (lines 94-95): `heat / specificHeat / mass`. -/
def Rod.temperature (r : Rod) : ℚ :=
  r.heat / r.material.specificHeat / r.mass

/-- `Rod.expansionTemperature` (lines 78-79): `temperature() - 273.0 - 20.0`. -/
def Rod.expansionTemperature (r : Rod) : ℚ :=
  r.temperature - 273 - 20

/-- `Rod.volumeExpansion` (lines 81-82). -/
def Rod.volumeExpansion (r : Rod) : ℚ :=
  1 + (r.material.expansionCoefficient * 3 * r.expansionTemperature)

/-- `Rod.linearExpansion` (lines 85-86), the approximation flagged in the source. -/
def Rod.linearExpansion (r : Rod) : ℚ :=
  1 + r.volumeExpansion * r.expansionTemperature

/-- `Rod.length` (lines 72-73): `STPLength * volumeExpansion()`. -/
def Rod.length (r : Rod) : ℚ :=
  r.STPLength * r.volumeExpansion

/-- `Rod.diameter` (lines 75-76): `STPDiameter * volumeExpansion()`. -/
def Rod.diameter (r : Rod) : ℚ :=
  r.STPDiameter * r.volumeExpansion

/-- `Rod.STPVolume` (lines 88-89): `length() * (diameter() / 2.0) ** 2`,
computed from the already-expanded length and diameter. -/
def Rod.STPVolume (r : Rod) : ℚ :=
  r.length * (r.diameter / 2) ^ 2

/-- `Rod.volume` (lines 69-70): `STPVolume() * volumeExpansion()`. -/
def Rod.volume (r : Rod) : ℚ :=
  r.STPVolume * r.volumeExpansion

/-- `Rod.modifyHeat` (lines 97-98): `self.heat += heatDelta`. -/
def Rod.modifyHeat (r : Rod) (heatDelta : ℚ) : Rod :=
  { r with heat := r.heat + heatDelta }

/-- `Rod.tick` (lines 100-114).  `delta` is accepted but unused by the body;
`now` is `time.time()`.  Console printing has no effect on state; the state
effects are: `printed` becomes true (header printed once), and when
`elapsed >= 1.0` the report clock advances by exactly `1.0`. -/
def Rod.tick (r : Rod) (delta now : ℚ) : Rod :=
  let _ := delta
  let elapsed := now - r.lastPrint
  let r1 := { r with printed := true }
  if elapsed ≥ 1 then { r1 with lastPrint := r1.lastPrint + 1 } else r1

/-- `molarToMassHeatCapacity` (lines 133-134). -/
def molarToMassHeatCapacity (molarCapacity molarMass : ℚ) : ℚ :=
  molarCapacity / molarMass

/-- State of a `HeatSource` object (lines 31-48).  `target = none` models the
`target` attribute never having been assigned (fresh object, `setTarget`
never called): reading it raises `AttributeError`. -/
structure HeatSource where
  power : ℚ
  «on» : Bool
  target : Option Nat
  deriving DecidableEq, Repr

/-- `HeatSource.__init__` (lines 34-36): sets `power`, `on = False`; the
`target` attribute is not created. -/
def HeatSource.init (power : ℚ) : HeatSource :=
  { power := power, «on» := false, target := none }

/-- `HeatSource.setTarget` (lines 38-39). -/
def HeatSource.setTarget (h : HeatSource) (i : Nat) : HeatSource :=
  { h with target := some i }

/-- `HeatSource.setPower` (lines 41-42). -/
def HeatSource.setPower (h : HeatSource) (power : ℚ) : HeatSource :=
  { h with power := power }

/-- `HeatSource.turnOn` (lines 44-45). -/
def HeatSource.turnOn (h : HeatSource) : HeatSource :=
  { h with «on» := true }

/-- `HeatSource.turnOff` (lines 47-48). -/
def HeatSource.turnOff (h : HeatSource) : HeatSource :=
  { h with «on» := false }

/-- `HeatSource.tick` (lines 50-53), acting on the rod heap.  The guard
`if self.target == None or not self.on: pass` has no early return, so after
it the code unconditionally runs `self.target.modifyHeat(delta * self.power)`.
Reading the missing `target` attribute (in the guard itself) raises
`AttributeError`; a set target always receives the injection, whatever `on`
is.  (An out-of-range heap index cannot arise from the Python code, where
`target` is a direct object reference; it is mapped to the same error.) -/
def HeatSource.tick (h : HeatSource) (delta : ℚ) (heap : List Rod) :
    Except PyError (List Rod) :=
  match h.target with
  | none => .error (.attributeError "target")
  | some i =>
    match heap.get? i with
    | none => .error (.attributeError "target")
    | some r => .ok (heap.set i (r.modifyHeat (delta * h.power)))

/-- An entry of `Simulation.objects`: either a `HeatSource` object (whose own
fields are never mutated by `tick`) or a reference to a `Rod` in the heap. -/
inductive SimObject where
  | heatSource (h : HeatSource) : SimObject
  | rodRef (i : Nat) : SimObject
  deriving DecidableEq, Repr

/-- Dispatch of `obj.tick(delta)` inside `Simulation.tick` (lines 15-17). -/
def SimObject.tick (o : SimObject) (delta now : ℚ) (heap : List Rod) :
    Except PyError (List Rod) :=
  match o with
  | .heatSource h => h.tick delta heap
  | .rodRef i =>
    match heap.get? i with
    | none => .error (.attributeError "rod")
    | some r => .ok (heap.set i (r.tick delta now))

/-- `Simulation` (lines 6-17): an ordered list of steppable objects. -/
structure Simulation where
  objects : List SimObject
  deriving DecidableEq, Repr

/-- `Simulation.__init__` (lines 8-9). -/
def Simulation.mk0 : Simulation := ⟨[]⟩

/-- `Simulation.addObject` (lines 11-12): appends to the ordered list. -/
def Simulation.addObject (s : Simulation) (o : SimObject) : Simulation :=
  ⟨s.objects ++ [o]⟩

/-- The loop body of `Simulation.tick` (lines 15-17), additionally recording
the trace of `tick` calls actually made, as `(object, delta)` pairs in call
order.  A raised exception aborts the loop (Python `for` semantics): the
erroring call is still recorded, later objects are not ticked. -/
def Simulation.tickAux (objs : List SimObject) (delta now : ℚ)
    (heap : List Rod) : Except PyError (List Rod) × List (SimObject × ℚ) :=
  match objs with
  | [] => (.ok heap, [])
  | o :: rest =>
    match o.tick delta now heap with
    | .error e => (.error e, [(o, delta)])
    | .ok heap' =>
      ((Simulation.tickAux rest delta now heap').1,
        (o, delta) :: (Simulation.tickAux rest delta now heap').2)

/-- `Simulation.tick` (lines 15-17) on the heap, with its call trace. -/
def Simulation.tick (s : Simulation) (delta now : ℚ) (heap : List Rod) :
    Except PyError (List Rod) × List (SimObject × ℚ) :=
  Simulation.tickAux s.objects delta now heap

/-- `true` iff the embedded computation finished without a Python exception. -/
def exceptOk {α : Type} : Except PyError α → Bool
  | .ok _ => true
  | .error _ => false

/-- A heat state of the same rod: same construction-time fields and display
state, different `heat` (the sole physically mutable variable). -/
def Rod.withHeat (r : Rod) (h : ℚ) : Rod :=
  { r with heat := h }

/-- The mutating operations callable on a `Rod` after construction. -/
inductive RodOp where
  | modifyHeat (heatDelta : ℚ) : RodOp
  | setTemperature (kelvin : ℚ) : RodOp
  | tick (delta now : ℚ) : RodOp
  deriving DecidableEq, Repr

/-- Apply one `RodOp` to a rod. -/
def Rod.apply (r : Rod) : RodOp → Rod
  | .modifyHeat d => r.modifyHeat d
  | .setTemperature k => r.setTemperature k
  | .tick d n => r.tick d n

/-- Apply a sequence of `RodOp`s in order. -/
def Rod.applyOps (r : Rod) : List RodOp → Rod
  | [] => r
  | op :: ops => (r.apply op).applyOps ops

/-- The `HeatSource` operations other than `setTarget` (a call history in
which `setTarget` never occurs). -/
inductive HSOp where
  | setPower (power : ℚ) : HSOp
  | turnOn : HSOp
  | turnOff : HSOp
  deriving DecidableEq, Repr

/-- Apply one `HSOp` to a heat source. -/
def HeatSource.apply (h : HeatSource) : HSOp → HeatSource
  | .setPower p => h.setPower p
  | .turnOn => h.turnOn
  | .turnOff => h.turnOff

/-- Apply a sequence of `HSOp`s in order. -/
def HeatSource.applyOps (h : HeatSource) : List HSOp → HeatSource
  | [] => h
  | op :: ops => (h.apply op).applyOps ops

/-- A simple material with unit constants, used for concrete evaluations. -/
def unitMaterial : Material := ⟨1, 1, 1⟩

/-- A concrete rod: `Rod(unitMaterial, 1, 1)` constructed at time `0`.
Its mass is `1` and its initial heat is `293` J. -/
def sampleRod : Rod := Rod.init unitMaterial 1 1 0

/-- A 100 W heat source that has been wired to rod `0` but is switched off. -/
def offHeater : HeatSource := ((HeatSource.init 100).setTarget 0).turnOff

/-- A 100 W heat source wired to rod `0` and switched on. -/
def onHeater : HeatSource := ((HeatSource.init 100).setTarget 0).turnOn

/-- A simulation holding a fresh (target-less) heater and then a rod:
the heater's `tick` raises, so the rod is never ticked. -/
def brokenSim : Simulation :=
  (Simulation.mk0.addObject (.heatSource (HeatSource.init 100))).addObject
    (.rodRef 0)

/-- A correctly wired simulation: heater on rod `0`, then the rod itself. -/
def goodSim : Simulation :=
  (Simulation.mk0.addObject (.heatSource onHeater)).addObject (.rodRef 0)

/-- C1 (code-bug evidence): the claim says a `HeatSource` with `on == false`
or with an unset target does nothing on `tick` (no heat change, no error).
The code's guard has no early return, so at the concrete failing input
(100 W heater, target set, `on = false`, `delta = 1`) `tick` adds `100` J to
the target rod's heat, and at a fresh heater with no target it raises
`AttributeError`. -/
theorem heatSource_guard_falls_through :
    offHeater.«on» = false ∧
    HeatSource.tick offHeater 1 [sampleRod] =
      .ok [sampleRod.modifyHeat 100] ∧
    (sampleRod.modifyHeat 100).heat = sampleRod.heat + 100 ∧
    sampleRod.heat + 100 ≠ sampleRod.heat ∧
    HeatSource.tick (HeatSource.init 100) 1 [sampleRod] =
      .error (.attributeError "target") := by
  refine ⟨rfl, ?_, rfl, ?_, ?_⟩
  · norm_num [offHeater, HeatSource.init, HeatSource.setTarget,
      HeatSource.turnOff, HeatSource.tick]
  · intro h
    linarith
  · norm_num [HeatSource.init, HeatSource.tick]

/-- C2: a `HeatSource` with `on == true`, a set target rod `r` (heap slot
`i`), and power `P` adds exactly `P * delta` joules to `r`'s heat on
`tick(delta)`, leaving the heap otherwise written only at slot `i`. -/
theorem heatSource_on_tick_adds_power_mul_delta
    (h : HeatSource) (delta : ℚ) (heap : List Rod) (i : Nat) (r : Rod)
    (hon : h.«on» = true) (htgt : h.target = some i)
    (hget : heap.get? i = some r) :
    h.tick delta heap = .ok (heap.set i (r.modifyHeat (delta * h.power))) ∧
    (r.modifyHeat (delta * h.power)).heat = r.heat + h.power * delta := by
  have hget2 : heap[i]? = some r := by simpa using hget
  constructor
  · simp [HeatSource.tick, htgt, hget2]
  · simp [Rod.modifyHeat]
    ring

/-- Witness for C2 at the concrete input: `onHeater` ticking `[sampleRod]`
for one second. -/
theorem heatSource_on_tick_adds_power_mul_delta_witness :
    HeatSource.tick onHeater 1 [sampleRod] =
      .ok ([sampleRod].set 0 (sampleRod.modifyHeat (1 * onHeater.power))) ∧
    (sampleRod.modifyHeat (1 * onHeater.power)).heat =
      sampleRod.heat + onHeater.power * 1 :=
  heatSource_on_tick_adds_power_mul_delta onHeater 1 [sampleRod] 0 sampleRod
    rfl rfl rfl

/-- C3: a rod freshly constructed from a material with positive density and
specific heat and positive length and diameter reports a temperature of
exactly `293` K before any heat injection. -/
theorem rod_init_temperature_293
    (m : Material) (L D now : ℚ)
    (hd : 0 < m.density) (hs : 0 < m.specificHeat) (hL : 0 < L) (hD : 0 < D) :
    (Rod.init m L D now).temperature = 293 := by
  have hm : L * D * m.density ≠ 0 := by positivity
  have hs0 : m.specificHeat ≠ 0 := ne_of_gt hs
  simp only [Rod.init, Rod.setTemperature, Rod.temperature]
  field_simp
  ring

/-- Witness for C3 at the concrete input `Rod(unitMaterial, 1, 1)`. -/
theorem rod_init_temperature_293_witness :
    (0 : ℚ) < unitMaterial.density ∧ (0 : ℚ) < unitMaterial.specificHeat ∧
    (Rod.init unitMaterial 1 1 0).temperature = 293 :=
  ⟨by norm_num [unitMaterial], by norm_num [unitMaterial],
    rod_init_temperature_293 unitMaterial 1 1 0
      (by norm_num [unitMaterial]) (by norm_num [unitMaterial])
      (by norm_num) (by norm_num)⟩

/-- C4: on a rod with nonzero mass and specific heat, `setTemperature(k)`
followed by `temperature()` returns exactly `k`, for any `k > 0`. -/
theorem setTemperature_temperature_roundtrip
    (r : Rod) (k : ℚ) (hm : r.mass ≠ 0) (hs : r.material.specificHeat ≠ 0)
    (hk : 0 < k) :
    (r.setTemperature k).temperature = k := by
  simp only [Rod.setTemperature, Rod.temperature]
  field_simp
  ring

/-- Witness for C4 at the concrete input `sampleRod`, `k = 5`. -/
theorem setTemperature_temperature_roundtrip_witness :
    (sampleRod.setTemperature 5).temperature = 5 :=
  setTemperature_temperature_roundtrip sampleRod 5
    (by norm_num [sampleRod, unitMaterial, Rod.init, Rod.setTemperature])
    (by norm_num [sampleRod, unitMaterial, Rod.init, Rod.setTemperature])
    (by norm_num)

/-- C5: for a rod whose material has `expansionCoefficient > 0`, of two heat
states of the same rod, the one with the strictly larger `temperature()`
also has the strictly larger `volumeExpansion()`. -/
theorem volumeExpansion_monotone_in_temperature
    (r : Rod) (h1 h2 : ℚ) (ha : 0 < r.material.expansionCoefficient)
    (ht : (r.withHeat h2).temperature < (r.withHeat h1).temperature) :
    (r.withHeat h2).volumeExpansion < (r.withHeat h1).volumeExpansion := by
  simp only [Rod.volumeExpansion, Rod.expansionTemperature, Rod.withHeat]
    at ht ⊢
  nlinarith [mul_pos ha (sub_pos.mpr ht)]

/-- Witness for C5 at the concrete inputs: `sampleRod` at heats `200`
and `300`. -/
theorem volumeExpansion_monotone_in_temperature_witness :
    (sampleRod.withHeat 200).volumeExpansion <
      (sampleRod.withHeat 300).volumeExpansion :=
  volumeExpansion_monotone_in_temperature sampleRod 300 200
    (by norm_num [sampleRod, unitMaterial, Rod.init, Rod.setTemperature])
    (by norm_num [sampleRod, unitMaterial, Rod.init, Rod.setTemperature,
      Rod.withHeat, Rod.temperature])

/-- If the loop of `Simulation.tick` completes without an exception, its call
trace holds exactly one `(object, delta)` entry per registered object, in
registration order. -/
theorem tickAux_trace_of_ok (delta now : ℚ) (objs : List SimObject) :
    ∀ heap : List Rod,
      exceptOk (Simulation.tickAux objs delta now heap).1 = true →
      (Simulation.tickAux objs delta now heap).2 =
        objs.map (fun o => (o, delta)) := by
  induction objs with
  | nil =>
    intro heap _
    simp [Simulation.tickAux]
  | cons o rest ih =>
    intro heap hok
    cases hc : o.tick delta now heap with
    | error e =>
      rw [Simulation.tickAux] at hok
      rw [hc] at hok
      simp [exceptOk] at hok
    | ok heap' =>
      rw [Simulation.tickAux] at hok ⊢
      rw [hc] at hok ⊢
      simp only [List.map]
      exact congrArg _ (ih heap' hok)

/-- C6 (amended): provided every registered object's `tick` completes without
an exception, `Simulation.tick(delta)` calls each registered object's
`tick(delta)` exactly once, in insertion order, synchronously; when a `tick`
raises (e.g. a `HeatSource` whose target was never set), the exception
propagates and the remaining objects are not ticked. -/
theorem simulation_tick_calls_each_once_in_order
    (s : Simulation) (delta now : ℚ) (heap : List Rod)
    (hok : exceptOk (s.tick delta now heap).1 = true) :
    (s.tick delta now heap).2 = s.objects.map (fun o => (o, delta)) :=
  tickAux_trace_of_ok delta now s.objects heap hok

/-- Witness for C6 (amended) on a concrete wired simulation: heater on rod
`0`, then the rod, ticking the one-rod heap for one second. -/
theorem simulation_tick_calls_each_once_in_order_witness :
    (goodSim.tick 1 0 [sampleRod]).2 =
      goodSim.objects.map (fun o => (o, (1 : ℚ))) :=
  simulation_tick_calls_each_once_in_order goodSim 1 0 [sampleRod] (by
    simp [goodSim, onHeater, Simulation.mk0, Simulation.addObject,
      Simulation.tick, Simulation.tickAux, SimObject.tick, HeatSource.tick,
      HeatSource.init, HeatSource.setTarget, HeatSource.turnOn, exceptOk])

/-- Counterexample to C6 as stated: in a simulation holding a fresh
(target-less) heater followed by a rod, `tick(1)` does not produce one call
per registered object — the heater's `tick` raises `AttributeError` and the
rod is never ticked. -/
theorem simulation_tick_not_always_each_once :
    ¬ ((brokenSim.tick 1 0 [sampleRod]).2 =
        brokenSim.objects.map (fun o => (o, (1 : ℚ)))) := by
  intro hEq
  have hlen := congrArg List.length hEq
  simp [brokenSim, Simulation.mk0, Simulation.addObject, Simulation.tick,
    Simulation.tickAux, SimObject.tick, HeatSource.tick, HeatSource.init]
    at hlen

/-- C7: `Rod.tick` advances no physical state: heat, STP length, STP
diameter, mass and material are unchanged (only the display bookkeeping
`printed`/`lastPrint` may change). -/
theorem rod_tick_preserves_physical_state (r : Rod) (delta now : ℚ) :
    (r.tick delta now).heat = r.heat ∧
    (r.tick delta now).STPLength = r.STPLength ∧
    (r.tick delta now).STPDiameter = r.STPDiameter ∧
    (r.tick delta now).mass = r.mass ∧
    (r.tick delta now).material = r.material := by
  simp only [Rod.tick]
  split <;> simp

/-- C8: `volume()` is `STPVolume() * volumeExpansion()` with `STPVolume()`
computed from the already-expanded length and diameter; equivalently,
`volume()` is `STPLength * (STPDiameter / 2)^2 * volumeExpansion()^4`. -/
theorem rod_volume_composition (r : Rod) :
    r.volume = r.STPVolume * r.volumeExpansion ∧
    r.STPVolume = r.length * (r.diameter / 2) ^ 2 ∧
    r.volume = r.STPLength * (r.STPDiameter / 2) ^ 2 *
      r.volumeExpansion ^ 4 := by
  refine ⟨rfl, rfl, ?_⟩
  simp only [Rod.volume, Rod.STPVolume, Rod.length, Rod.diameter]
  ring

/-- One post-construction operation preserves a rod's construction-time
fields. -/
theorem rod_apply_preserves_construction_fields (r : Rod) (op : RodOp) :
    (r.apply op).STPLength = r.STPLength ∧
    (r.apply op).STPDiameter = r.STPDiameter ∧
    (r.apply op).mass = r.mass ∧
    (r.apply op).material = r.material := by
  cases op with
  | modifyHeat d => simp [Rod.apply, Rod.modifyHeat]
  | setTemperature k => simp [Rod.apply, Rod.setTemperature]
  | tick d n =>
    simp only [Rod.apply, Rod.tick]
    split <;> simp

/-- Any sequence of post-construction operations preserves a rod's
construction-time fields. -/
theorem rod_applyOps_preserves_construction_fields (ops : List RodOp) :
    ∀ r : Rod,
      (r.applyOps ops).STPLength = r.STPLength ∧
      (r.applyOps ops).STPDiameter = r.STPDiameter ∧
      (r.applyOps ops).mass = r.mass ∧
      (r.applyOps ops).material = r.material := by
  induction ops with
  | nil =>
    intro r
    exact ⟨rfl, rfl, rfl, rfl⟩
  | cons op rest ih =>
    intro r
    obtain ⟨a1, a2, a3, a4⟩ := rod_apply_preserves_construction_fields r op
    obtain ⟨b1, b2, b3, b4⟩ := ih (r.apply op)
    exact ⟨b1.trans a1, b2.trans a2, b3.trans a3, b4.trans a4⟩

/-- C9: after any sequence of `modifyHeat`, `setTemperature` and `tick`
calls, a rod constructed from material `m` with length `L` and diameter `D`
still holds `STPLength = L`, `STPDiameter = D`, `mass = L * D * m.density`
and `material = m`. -/
theorem rod_construction_fields_invariant
    (m : Material) (L D now0 : ℚ) (ops : List RodOp) :
    ((Rod.init m L D now0).applyOps ops).STPLength = L ∧
    ((Rod.init m L D now0).applyOps ops).STPDiameter = D ∧
    ((Rod.init m L D now0).applyOps ops).mass = L * D * m.density ∧
    ((Rod.init m L D now0).applyOps ops).material = m := by
  obtain ⟨h1, h2, h3, h4⟩ :=
    rod_applyOps_preserves_construction_fields ops (Rod.init m L D now0)
  refine ⟨h1.trans ?_, h2.trans ?_, h3.trans ?_, h4.trans ?_⟩ <;>
    simp [Rod.init, Rod.setTemperature]

/-- The `HeatSource` operations other than `setTarget` leave `target`
untouched. -/
theorem hs_apply_preserves_target (h : HeatSource) (op : HSOp) :
    (h.apply op).target = h.target := by
  cases op <;>
    simp [HeatSource.apply, HeatSource.setPower, HeatSource.turnOn,
      HeatSource.turnOff]

/-- A sequence of non-`setTarget` operations leaves `target` untouched. -/
theorem hs_applyOps_preserves_target (ops : List HSOp) :
    ∀ h : HeatSource, (h.applyOps ops).target = h.target := by
  induction ops with
  | nil =>
    intro h
    rfl
  | cons op rest ih =>
    intro h
    exact (ih (h.apply op)).trans (hs_apply_preserves_target h op)

/-- C10: a freshly constructed `HeatSource` on which `setTarget` was never
called (any sequence of `setPower`/`turnOn`/`turnOff` calls allowed) raises
`AttributeError` from `tick(delta)` for every `delta` and heap, whatever the
`on` flag — it does not act as a silent no-op. -/
theorem fresh_heatSource_tick_raises
    (p : ℚ) (ops : List HSOp) (delta : ℚ) (heap : List Rod) :
    ((HeatSource.init p).applyOps ops).tick delta heap =
      .error (.attributeError "target") := by
  have ht : ((HeatSource.init p).applyOps ops).target = none :=
    (hs_applyOps_preserves_target ops (HeatSource.init p)).trans rfl
  simp [HeatSource.tick, ht]
